import Mathlib

/-!
Shallow embedding of the montecarlo module (src/montecarlo.py).

Numeric values are modelled as rationals.  The external random-variate
source (scipy.stats.norm.rvs) and the square-root primitive used inside
numpy's standard deviation are modelled as opaque function parameters,
since the module depends on them only through their functional contract.
-/

def MILLION : ℕ := 1000000

/-- Number of samples for Monte Carlo simulation. -/
def TRIALS : ℕ := MILLION

/-- Default process capability (1.33 in the source). -/
def CP : ℚ := 133 / 100

/-- A value supplied to the rvs setter.  Python is dynamically typed, so
the setter may receive a numpy ndarray, a plain Python list, or anything
else; the isinstance check in the setter distinguishes these cases. -/
inductive PyValue where
  | ndarray (xs : List ℚ)
  | pylist (xs : List ℚ)
  | other

/-- The Parameter class: specification limits, target, name, and the
lazily created random-variates attribute.  `rvsAttr` models the
`_rvs` attribute, which is absent (`none`) until first read or explicit
assignment. -/
structure Parameter where
  lsl : ℚ
  target : ℚ
  usl : ℚ
  name : String
  rvsAttr : Option (List ℚ)

namespace Parameter

/-- `Parameter.__init__(self, target, tolerance, name='')`. -/
def init (target tolerance : ℚ) (name : String) : Parameter :=
  { lsl := target - tolerance
    target := target
    usl := target + tolerance
    name := name
    rvsAttr := none }

/-- The rvs setter: raises ValueError unless the supplied value is an
ndarray of size TRIALS; otherwise stores it in `_rvs`. -/
def setRvs (p : Parameter) (variates : PyValue) : Except String Parameter :=
  match variates with
  | PyValue.ndarray xs =>
      if xs.length = TRIALS then
        Except.ok { p with rvsAttr := some xs }
      else
        Except.error s!"variates must be an ndarray of size {TRIALS}"
  | _ => Except.error s!"variates must be an ndarray of size {TRIALS}"

/-- The rvs setter viewed as a state transformer: the Python `raise`
happens before the assignment to `self._rvs`, so on failure the escaping
exception leaves the instance exactly as it was. -/
def setRvsState (p : Parameter) (v : PyValue) : Parameter × Option String :=
  match p.setRvs v with
  | Except.ok q => (q, none)
  | Except.error e => (p, some e)

/-- The rvs getter: return the cached variates if present, else derive
the standard deviation from the specification limits, draw TRIALS
variates from the normal-distribution source, store them through the
setter, and return them.  `sampler mean std n` models
`norm.rvs(mean, std, n)`. -/
def rvs (sampler : ℚ → ℚ → ℕ → List ℚ) (p : Parameter) :
    Except String (List ℚ × Parameter) :=
  match p.rvsAttr with
  | some xs => Except.ok (xs, p)
  | none =>
      let std := min (p.usl - p.target) (p.target - p.lsl) / (3 * CP)
      let xs := sampler p.target std TRIALS
      match p.setRvs (PyValue.ndarray xs) with
      | Except.ok q => Except.ok (xs, q)
      | Except.error e => Except.error e

end Parameter

/-- `above(arr, maximum)`: parts per million in arr above maximum. -/
def above (arr : List ℚ) (maximum : ℚ) : ℚ :=
  (MILLION : ℚ) * ((arr.filter (fun x => decide (maximum < x))).length : ℚ)
    / (arr.length : ℚ)

/-- `below(arr, minimum)`: parts per million in arr below minimum. -/
def below (arr : List ℚ) (minimum : ℚ) : ℚ :=
  (MILLION : ℚ) * ((arr.filter (fun x => decide (x < minimum))).length : ℚ)
    / (arr.length : ℚ)

/-- `np.median`: sort ascending; middle element for odd length, mean of
the two middle elements for even length. -/
def npMedian (xs : List ℚ) : ℚ :=
  let s := List.insertionSort (· ≤ ·) xs
  let n := s.length
  if n % 2 = 1 then s.getD (n / 2) 0
  else (s.getD (n / 2 - 1) 0 + s.getD (n / 2) 0) / 2

/-- `ndarray.mean()`: arithmetic mean. -/
def npMean (xs : List ℚ) : ℚ := xs.sum / (xs.length : ℚ)

/-- Sum of squared deviations from the mean. -/
def sumSqDev (xs : List ℚ) : ℚ :=
  (xs.map (fun x => (x - npMean xs) ^ 2)).sum

/-- `ndarray.std(ddof=d)`: square root of the sum of squared deviations
divided by (N - ddof).  The square-root primitive is an opaque
parameter. -/
def npStd (sqrt : ℚ → ℚ) (xs : List ℚ) (ddof : ℕ) : ℚ :=
  sqrt (sumSqDev xs / ((xs.length : ℚ) - (ddof : ℚ)))

/-- `describe(results, units='', lsl=None, usl=None)`: labelled summary
statistics, modelling the pandas Series as an ordered list of
label-value pairs built up in insertion order. -/
def describe (sqrt : ℚ → ℚ) (results : List ℚ) (units : String)
    (lsl usl : Option ℚ) : List (String × ℚ) :=
  let res := [(s!"Median ({units})", npMedian results),
              (s!"Mean ({units})", npMean results),
              (s!"Standard deviation ({units})", npStd sqrt results 1)]
  let res2 := match lsl with
    | some l => res ++ [(s!"ppm below {l} {units}", below results l)]
    | none => res
  match usl with
  | some u => res2 ++ [(s!"ppm above {u} {units}", above results u)]
  | none => res2

/-! Helper lemmas shared by several theorems. -/

/-- Every list element is greater than, less than, or equal to a given
threshold, so the three filter lengths add up to the list length. -/
theorem filter_length_trichotomy (m : ℚ) (arr : List ℚ) :
    (arr.filter (fun x => decide (m < x))).length
      + (arr.filter (fun x => decide (x < m))).length
      + (arr.filter (fun x => decide (x = m))).length = arr.length := by
  induction arr with
  | nil => simp
  | cons a t ih =>
      rcases lt_trichotomy m a with h | h | h
      · simp only [List.filter_cons, decide_eq_true_eq, if_pos h,
          if_neg (not_lt.mpr h.le), if_neg h.ne', List.length_cons]
        omega
      · subst h
        simp only [List.filter_cons, decide_eq_true_eq, if_neg (lt_irrefl m),
          eq_self_iff_true, if_true, List.length_cons]
        omega
      · simp only [List.filter_cons, decide_eq_true_eq, if_pos h,
          if_neg (not_lt.mpr h.le), if_neg h.ne, List.length_cons]
        omega

/-- C8: `Parameter(target, tolerance, name)` sets lsl = target - tolerance
and usl = target + tolerance, stores target and name unchanged, and is a
total function (no error for any inputs, negative tolerance included). -/
theorem init_fields (target tolerance : ℚ) (name : String) :
    (Parameter.init target tolerance name).lsl = target - tolerance ∧
    (Parameter.init target tolerance name).usl = target + tolerance ∧
    (Parameter.init target tolerance name).target = target ∧
    (Parameter.init target tolerance name).name = name :=
  ⟨rfl, rfl, rfl, rfl⟩

/-- C7 counterexample: a Parameter constructed with tolerance -1 has
lsl = target + 1 > target, so `lsl <= target <= usl` fails. -/
theorem init_order_counterexample :
    ¬ ((Parameter.init 0 (-1) "").lsl ≤ (Parameter.init 0 (-1) "").target ∧
       (Parameter.init 0 (-1) "").target ≤ (Parameter.init 0 (-1) "").usl) := by
  intro hc
  have h1 : (Parameter.init 0 (-1) "").lsl = 1 := by norm_num [Parameter.init]
  have h2 : (Parameter.init 0 (-1) "").target = 0 := rfl
  rw [h1, h2] at hc
  exact absurd hc.1 (by norm_num)

/-- C7 (amended): for a Parameter constructed with a nonnegative
tolerance and never given an externally assigned limit,
lsl <= target <= usl holds. -/
theorem init_lsl_le_target_le_usl (target tolerance : ℚ) (name : String)
    (h : 0 ≤ tolerance) :
    (Parameter.init target tolerance name).lsl ≤ (Parameter.init target tolerance name).target ∧
    (Parameter.init target tolerance name).target ≤ (Parameter.init target tolerance name).usl := by
  refine ⟨?_, ?_⟩ <;> simp only [Parameter.init] <;> linarith

/-- C7 amended witness at tolerance 1. -/
theorem init_lsl_le_target_le_usl_witness :
    (0 : ℚ) ≤ 1 ∧
    ((Parameter.init 5 1 "x").lsl ≤ (Parameter.init 5 1 "x").target ∧
     (Parameter.init 5 1 "x").target ≤ (Parameter.init 5 1 "x").usl) :=
  ⟨by norm_num, init_lsl_le_target_le_usl 5 1 "x" (by norm_num)⟩

/-- C2: for every non-empty array, `above` returns one million times the
count of elements strictly greater than the threshold divided by the
total count, and `below` the same with strictly less than. -/
theorem above_below_ppm (arr : List ℚ) (m : ℚ) (h : arr ≠ []) :
    above arr m
      = 1000000 * (arr.countP (fun x => decide (m < x)) : ℚ) / (arr.length : ℚ) ∧
    below arr m
      = 1000000 * (arr.countP (fun x => decide (x < m)) : ℚ) / (arr.length : ℚ) := by
  refine ⟨?_, ?_⟩ <;>
    simp only [above, below, List.countP_eq_length_filter, MILLION] <;>
    norm_num

/-- C2 witness on a concrete array. -/
theorem above_below_ppm_witness :
    ([0, 1, 2] : List ℚ) ≠ [] ∧
    (above [0, 1, 2] 1
       = 1000000 * (([0, 1, 2] : List ℚ).countP (fun x => decide ((1 : ℚ) < x)) : ℚ)
           / (([0, 1, 2] : List ℚ).length : ℚ) ∧
     below [0, 1, 2] 1
       = 1000000 * (([0, 1, 2] : List ℚ).countP (fun x => decide (x < (1 : ℚ))) : ℚ)
           / (([0, 1, 2] : List ℚ).length : ℚ)) :=
  ⟨by simp, above_below_ppm [0, 1, 2] 1 (by simp)⟩

/-- Arithmetic fact behind the complementarity of above and below:
scaling two disjoint counts out of n to parts per million. -/
theorem ppm_sum_bound (a b n : ℕ) (hn : n ≠ 0) (hab : a + b ≤ n) :
    (1000000 : ℚ) * a / n + 1000000 * b / n ≤ 1000000 ∧
    ((1000000 : ℚ) * a / n + 1000000 * b / n = 1000000 ↔ a + b = n) := by
  have hnq : (0 : ℚ) < (n : ℚ) := by exact_mod_cast Nat.pos_of_ne_zero hn
  have hsum : (1000000 : ℚ) * a / n + 1000000 * b / n
      = 1000000 * ((a : ℚ) + b) / n := by
    field_simp
    ring
  constructor
  · rw [hsum, div_le_iff hnq]
    have hc : ((a : ℚ) + b) ≤ (n : ℚ) := by exact_mod_cast hab
    nlinarith
  · rw [hsum, div_eq_iff (ne_of_gt hnq)]
    constructor
    · intro heq
      have hc := mul_left_cancel₀ (by norm_num : (1000000 : ℚ) ≠ 0) heq
      exact_mod_cast hc
    · intro heq
      have hc : ((a : ℚ) + b) = (n : ℚ) := by exact_mod_cast heq
      rw [hc]

/-- C6: for a non-empty array and a threshold strictly inside its value
range, above + below is at most one million, with equality exactly when
no element equals the threshold. -/
theorem above_add_below_complementary (arr : List ℚ) (m : ℚ) (h : arr ≠ [])
    (hlo : ∃ x ∈ arr, x < m) (hhi : ∃ x ∈ arr, m < x) :
    above arr m + below arr m ≤ 1000000 ∧
    (above arr m + below arr m = 1000000 ↔ ∀ x ∈ arr, x ≠ m) := by
  have hn0 : arr.length ≠ 0 := fun hc => h (List.length_eq_zero.mp hc)
  have htri := filter_length_trichotomy m arr
  have hab : (arr.filter (fun x => decide (m < x))).length
      + (arr.filter (fun x => decide (x < m))).length ≤ arr.length := by omega
  have hmain := ppm_sum_bound _ _ _ hn0 hab
  have hshape : above arr m + below arr m
      = (1000000 : ℚ) * ((arr.filter (fun x => decide (m < x))).length : ℚ)
          / (arr.length : ℚ)
        + 1000000 * ((arr.filter (fun x => decide (x < m))).length : ℚ)
          / (arr.length : ℚ) := by
    simp only [above, below, MILLION]
    norm_num
  rw [hshape]
  refine ⟨hmain.1, ?_⟩
  rw [hmain.2]
  constructor
  · intro hsum x hx hxm
    have hce : (arr.filter (fun y => decide (y = m))).length = 0 := by omega
    have hnil := List.length_eq_zero.mp hce
    have hmem : x ∈ arr.filter (fun y => decide (y = m)) := by
      rw [List.mem_filter]
      exact ⟨hx, by simpa using hxm⟩
    rw [hnil] at hmem
    exact absurd hmem (List.not_mem_nil x)
  · intro hall
    have hce : (arr.filter (fun y => decide (y = m))).length = 0 := by
      rw [List.length_eq_zero, List.filter_eq_nil_iff]
      intro a ha
      simpa using hall a ha
    omega

/-- C6 witness on the array [0, 2] with threshold 1 strictly inside its
range. -/
theorem above_add_below_complementary_witness :
    (([0, 2] : List ℚ) ≠ [] ∧ (∃ x ∈ ([0, 2] : List ℚ), x < 1) ∧
     (∃ x ∈ ([0, 2] : List ℚ), (1 : ℚ) < x)) ∧
    (above [0, 2] 1 + below [0, 2] 1 ≤ 1000000 ∧
     (above [0, 2] 1 + below [0, 2] 1 = 1000000 ↔
       ∀ x ∈ ([0, 2] : List ℚ), x ≠ 1)) :=
  ⟨⟨by simp, ⟨0, by simp, by norm_num⟩, ⟨2, by simp, by norm_num⟩⟩,
   above_add_below_complementary [0, 2] 1 (by simp)
     ⟨0, by simp, by norm_num⟩ ⟨2, by simp, by norm_num⟩⟩

/-- Reading rvs when the variates are already cached returns the cache
and leaves the instance unchanged. -/
theorem rvs_cached (p : Parameter) (xs : List ℚ) (h : p.rvsAttr = some xs)
    (sampler : ℚ → ℚ → ℕ → List ℚ) :
    p.rvs sampler = Except.ok (xs, p) := by
  unfold Parameter.rvs
  rw [h]

/-- Reading rvs on a fresh instance draws from the sampler at the
derived standard deviation and caches the result. -/
theorem rvs_none_eq (p : Parameter) (sampler : ℚ → ℚ → ℕ → List ℚ)
    (hnew : p.rvsAttr = none)
    (hx : (sampler p.target
        (min (p.usl - p.target) (p.target - p.lsl) / (3 * CP)) TRIALS).length
      = TRIALS) :
    p.rvs sampler = Except.ok
      (sampler p.target
         (min (p.usl - p.target) (p.target - p.lsl) / (3 * CP)) TRIALS,
       { p with rvsAttr := some (sampler p.target
           (min (p.usl - p.target) (p.target - p.lsl) / (3 * CP)) TRIALS) }) := by
  unfold Parameter.rvs
  rw [hnew]
  simp [Parameter.setRvs, hx]

/-- A sampler that returns the mean repeated n times; used in
witnesses. -/
def replicateSampler : ℚ → ℚ → ℕ → List ℚ :=
  fun mean _ n => List.replicate n mean

/-- A Parameter whose variates are already cached; used in witnesses. -/
def pCached : Parameter :=
  { lsl := 0, target := 0, usl := 0, name := "", rvsAttr := some [1] }

/-- C1: on a Parameter whose samples were never generated or assigned,
the first read derives std = min(usl - target, target - lsl) / (3 * CP)
with CP = 1.33, draws TRIALS samples from the normal source at mean
target and that std, and the cached array has exactly TRIALS = 1000000
elements. -/
theorem rvs_first_read (p : Parameter) (sampler : ℚ → ℚ → ℕ → List ℚ)
    (hnew : p.rvsAttr = none)
    (hlen : ∀ m s n, (sampler m s n).length = n) :
    ∃ xs q, p.rvs sampler = Except.ok (xs, q) ∧
      xs = sampler p.target
        (min (p.usl - p.target) (p.target - p.lsl) / (3 * (133 / 100))) TRIALS ∧
      xs.length = 1000000 ∧
      q.rvsAttr = some xs := by
  refine ⟨_, _, rvs_none_eq p sampler hnew (hlen _ _ _), rfl, hlen _ _ _, rfl⟩

/-- C1 witness: a freshly constructed Parameter and a length-respecting
sampler. -/
theorem rvs_first_read_witness :
    ((Parameter.init 0 1 "").rvsAttr = none ∧
     (∀ m s n, (replicateSampler m s n).length = n)) ∧
    (∃ xs q, (Parameter.init 0 1 "").rvs replicateSampler = Except.ok (xs, q) ∧
      xs = replicateSampler (Parameter.init 0 1 "").target
        (min ((Parameter.init 0 1 "").usl - (Parameter.init 0 1 "").target)
             ((Parameter.init 0 1 "").target - (Parameter.init 0 1 "").lsl)
           / (3 * (133 / 100))) TRIALS ∧
      xs.length = 1000000 ∧
      q.rvsAttr = some xs) :=
  ⟨⟨rfl, fun m s n => by simp [replicateSampler]⟩,
   rvs_first_read (Parameter.init 0 1 "") replicateSampler rfl
     (fun m s n => by simp [replicateSampler])⟩

/-- C4: sample generation is lazy and idempotent.  If one read of rvs
returned (xs, q), then a second read on q returns exactly the same
cached array and state, and does so for an arbitrary second sampler, so
no second draw is performed. -/
theorem rvs_idempotent (p q : Parameter)
    (sampler sampler2 : ℚ → ℚ → ℕ → List ℚ) (xs : List ℚ)
    (h : p.rvs sampler = Except.ok (xs, q)) :
    q.rvs sampler2 = Except.ok (xs, q) := by
  have hq : q.rvsAttr = some xs := by
    cases hc : p.rvsAttr with
    | some ys =>
        rw [rvs_cached p ys hc sampler] at h
        simp only [Except.ok.injEq, Prod.mk.injEq] at h
        rw [← h.2, ← h.1]
        exact hc
    | none =>
        by_cases hlen : (sampler p.target
            (min (p.usl - p.target) (p.target - p.lsl) / (3 * CP))
            TRIALS).length = TRIALS
        · rw [rvs_none_eq p sampler hc hlen] at h
          simp only [Except.ok.injEq, Prod.mk.injEq] at h
          rw [← h.2, ← h.1]
        · unfold Parameter.rvs at h
          rw [hc] at h
          simp [Parameter.setRvs, hlen] at h
  exact rvs_cached q xs hq sampler2

/-- C4 witness: a Parameter with a cached array, read twice with two
different samplers. -/
theorem rvs_idempotent_witness :
    pCached.rvs (fun _ _ _ => []) = Except.ok ([1], pCached) ∧
    pCached.rvs replicateSampler = Except.ok ([1], pCached) :=
  ⟨rfl, rvs_idempotent pCached pCached (fun _ _ _ => []) replicateSampler [1] rfl⟩

/-- C3: assigning an ndarray as a Parameter's samples fails with the
ValueError naming TRIALS exactly when its length differs from TRIALS;
an ndarray of length TRIALS is always accepted and is returned verbatim
by the next read, with no generation performed. -/
theorem setRvs_length_check (p : Parameter) (xs : List ℚ) :
    (xs.length ≠ TRIALS →
       p.setRvs (PyValue.ndarray xs)
         = Except.error ("variates must be an ndarray of size " ++ toString TRIALS)) ∧
    (xs.length = TRIALS →
       ∃ q, p.setRvs (PyValue.ndarray xs) = Except.ok q ∧
         q.rvsAttr = some xs ∧
         ∀ sampler, q.rvs sampler = Except.ok (xs, q)) := by
  constructor
  · intro hne
    simp only [Parameter.setRvs, if_neg hne]
    rfl
  · intro heq
    refine ⟨{ p with rvsAttr := some xs }, ?_, rfl, ?_⟩
    · simp [Parameter.setRvs, heq]
    · intro sampler
      exact rvs_cached _ xs rfl sampler

/-- C3 witness: the empty array is rejected with the message naming
1000000; an array of one million zeros is accepted and read back. -/
theorem setRvs_length_check_witness :
    (([] : List ℚ).length ≠ TRIALS ∧
     (Parameter.init 0 1 "").setRvs (PyValue.ndarray [])
       = Except.error ("variates must be an ndarray of size " ++ toString TRIALS)) ∧
    ((List.replicate TRIALS (0 : ℚ)).length = TRIALS ∧
     ∃ q, (Parameter.init 0 1 "").setRvs (PyValue.ndarray (List.replicate TRIALS 0))
       = Except.ok q ∧ q.rvsAttr = some (List.replicate TRIALS 0) ∧
       ∀ sampler, q.rvs sampler = Except.ok (List.replicate TRIALS 0, q)) :=
  ⟨⟨by decide, (setRvs_length_check (Parameter.init 0 1 "") []).1 (by decide)⟩,
   ⟨by simp, (setRvs_length_check (Parameter.init 0 1 "") _).2 (by simp)⟩⟩

/-- C9: the rvs setter rejects any value that is not an ndarray, even a
Python list with exactly TRIALS elements; it succeeds exactly on
ndarrays of size TRIALS. -/
theorem setRvs_requires_ndarray (p : Parameter) :
    (∀ xs : List ℚ, xs.length = TRIALS →
       p.setRvs (PyValue.pylist xs)
         = Except.error ("variates must be an ndarray of size " ++ toString TRIALS)) ∧
    (∀ v : PyValue, (∃ q, p.setRvs v = Except.ok q) ↔
       ∃ xs, v = PyValue.ndarray xs ∧ xs.length = TRIALS) := by
  constructor
  · intro xs _
    rfl
  · intro v
    constructor
    · rintro ⟨q, hq⟩
      cases v with
      | ndarray xs =>
          by_cases hx : xs.length = TRIALS
          · exact ⟨xs, rfl, hx⟩
          · simp [Parameter.setRvs, hx] at hq
      | pylist xs => simp [Parameter.setRvs] at hq
      | other => simp [Parameter.setRvs] at hq
    · rintro ⟨xs, rfl, hx⟩
      exact ⟨{ p with rvsAttr := some xs }, by simp [Parameter.setRvs, hx]⟩

/-- C9 witness: a Python list of one million elements is rejected; the
non-array value `other` cannot be accepted. -/
theorem setRvs_requires_ndarray_witness :
    ((List.replicate TRIALS (0 : ℚ)).length = TRIALS ∧
     (Parameter.init 0 1 "").setRvs (PyValue.pylist (List.replicate TRIALS 0))
       = Except.error ("variates must be an ndarray of size " ++ toString TRIALS)) ∧
    ((∃ q, (Parameter.init 0 1 "").setRvs PyValue.other = Except.ok q) ↔
     ∃ xs, PyValue.other = PyValue.ndarray xs ∧ xs.length = TRIALS) :=
  ⟨⟨by simp, (setRvs_requires_ndarray (Parameter.init 0 1 "")).1 _ (by simp)⟩,
   (setRvs_requires_ndarray (Parameter.init 0 1 "")).2 PyValue.other⟩

/-- C10: the setter is atomic on failure.  If the assignment raises, the
instance is unchanged in every field, and in particular a previously
cached array is still returned by the next read. -/
theorem setRvsState_atomic (p q : Parameter) (v : PyValue) (e : String)
    (h : p.setRvsState v = (q, some e)) :
    q = p ∧ q.lsl = p.lsl ∧ q.target = p.target ∧ q.usl = p.usl ∧
    q.name = p.name ∧ q.rvsAttr = p.rvsAttr ∧
    (∀ xs, p.rvsAttr = some xs →
       ∀ sampler, q.rvs sampler = Except.ok (xs, q)) := by
  have hq : q = p := by
    unfold Parameter.setRvsState at h
    cases hs : p.setRvs v with
    | ok r =>
        rw [hs] at h
        simp only [Prod.mk.injEq] at h
        exact absurd h.2 (by simp)
    | error e2 =>
        rw [hs] at h
        simp only [Prod.mk.injEq] at h
        exact h.1.symm
  subst hq
  refine ⟨rfl, rfl, rfl, rfl, rfl, rfl, ?_⟩
  intro xs hxs sampler
  exact rvs_cached q xs hxs sampler

/-- C10 witness: a failing assignment on a Parameter with a cached
array leaves everything unchanged. -/
theorem setRvsState_atomic_witness :
    pCached.setRvsState PyValue.other
      = (pCached, some "variates must be an ndarray of size 1000000") ∧
    (pCached = pCached ∧ pCached.lsl = pCached.lsl ∧
     pCached.target = pCached.target ∧ pCached.usl = pCached.usl ∧
     pCached.name = pCached.name ∧ pCached.rvsAttr = pCached.rvsAttr ∧
     (∀ xs, pCached.rvsAttr = some xs →
        ∀ sampler, pCached.rvs sampler = Except.ok (xs, pCached))) :=
  ⟨rfl, setRvsState_atomic pCached pCached PyValue.other
     "variates must be an ndarray of size 1000000" rfl⟩

/-- C5: describe returns, in this fixed order, median, mean, the sample
standard deviation with divisor N - 1 (Bessel-corrected), then ppm
below lsl via below only if lsl is given, then ppm above usl via above
only if usl is given: five entries with both limits, and exactly the
first three entries with both omitted, with no error. -/
theorem describe_entries (sqrt : ℚ → ℚ) (arr : List ℚ) (u : String) (L U : ℚ)
    (h : arr ≠ []) :
    (describe sqrt arr u (some L) (some U)).length = 5 ∧
    (describe sqrt arr u none none).length = 3 ∧
    (describe sqrt arr u (some L) (some U)).take 3 = describe sqrt arr u none none ∧
    (describe sqrt arr u (some L) (some U)).map Prod.snd =
      [npMedian arr, npMean arr, sqrt (sumSqDev arr / ((arr.length : ℚ) - 1)),
       below arr L, above arr U] ∧
    (describe sqrt arr u (some L) (some U)).map Prod.fst =
      [s!"Median ({u})", s!"Mean ({u})", s!"Standard deviation ({u})",
       s!"ppm below {L} {u}", s!"ppm above {U} {u}"] := by
  refine ⟨rfl, rfl, rfl, ?_, rfl⟩
  simp [describe, npStd]

/-- C5 witness on the one-element array [1]. -/
theorem describe_entries_witness :
    ([1] : List ℚ) ≠ [] ∧
    ((describe id [1] "u" (some 0) (some 2)).length = 5 ∧
     (describe id [1] "u" none none).length = 3 ∧
     (describe id [1] "u" (some 0) (some 2)).take 3 = describe id [1] "u" none none ∧
     (describe id [1] "u" (some 0) (some 2)).map Prod.snd =
       [npMedian [1], npMean [1], id (sumSqDev [1] / ((([1] : List ℚ).length : ℚ) - 1)),
        below [1] 0, above [1] 2] ∧
     (describe id [1] "u" (some 0) (some 2)).map Prod.fst =
       ["Median (u)", "Mean (u)", "Standard deviation (u)",
        "ppm below 0 u", "ppm above 2 u"]) :=
  ⟨by simp, describe_entries id [1] "u" 0 2 (by simp)⟩
